import Mathlib

/-!
# Verification of the qcSystemGenerator accretion engine and planet evaluator

Shallow embedding, in Lean 4, of the parts of the qcSystemGenerator C++
library that the specification's claims are about:

* the dust-band partition maintained by `Generator::updateDustLanes`
  (src/source/Generator.cpp),
* the collision/insertion logic of `Generator::coalescePlanetisimals`,
* the dust/gas density split of `Generator::collectDust`,
* the classification logic of `Planet::evaluate` (src/source/Planet.cpp),
* the surface-condition convergence loop `Planet::iterateSurfaceConditions`,
* the zone/table selection of `KothariRadius` (src/source/Equations.cpp),
* the cloud-eccentricity clamp of `System::create` (src/source/System.cpp),
* `Generator::randomEccentricity` (src/include/qcSysGen/Generator.h).

Floating-point `double`/`float` arithmetic is embedded as exact rational
arithmetic (`ℚ`).  Transcendental library calls that have no rational
counterpart (`pow`, `sqrt`, `exp`, `cos`) are embedded as explicit function
or value parameters; where a theorem depends on such a value, the value is
constrained by its defining algebraic property (for instance a square root
`s` of `x` is an `s` with `0 ≤ s` and `s^2 = x`) rather than assumed to have
ad-hoc bounds.
-/

namespace QcSysGen

/-! ## Dust bands (struct `Generator::Dust`, src/include/qcSysGen/Generator.h) -/

/-- One band of the protoplanetary dust disk: `[innerEdge, outerEdge]` in AU,
with flags recording whether dust and gas remain available in the band. -/
structure Dust where
  innerEdge : ℚ
  outerEdge : ℚ
  dustPresent : Bool
  gasPresent : Bool
deriving DecidableEq, Repr

/-- The effect of one pass of the `while` loop of `Generator::updateDustLanes`
on a single dust band, given the swept region `[rIn, rOut]` and whether gas
remains after the sweep (`protoplanet.mass < protoplanet.criticalMass`).
The four guarded cases of the loop body translate, in order, to the four
branches below; a band disjoint from the swept region is left unchanged. -/
def sweepBand (rIn rOut : ℚ) (gasRemains : Bool) (b : Dust) : List Dust :=
  if b.innerEdge < rIn ∧ b.outerEdge > rOut then
    -- band contains the entire swept region: split in three
    [⟨b.innerEdge, rIn, b.dustPresent, b.gasPresent⟩,
     ⟨rIn, rOut, false, b.gasPresent && gasRemains⟩,
     ⟨rOut, b.outerEdge, b.dustPresent, b.gasPresent⟩]
  else if b.innerEdge < rOut ∧ b.outerEdge ≥ rOut then
    -- band straddles the outer limit of the swept region
    [⟨b.innerEdge, rOut, false, b.gasPresent && gasRemains⟩,
     ⟨rOut, b.outerEdge, b.dustPresent, b.gasPresent⟩]
  else if b.innerEdge ≤ rIn ∧ b.outerEdge > rIn then
    -- band straddles the inner limit of the swept region
    [⟨b.innerEdge, rIn, b.dustPresent, b.gasPresent⟩,
     ⟨rIn, b.outerEdge, false, b.gasPresent && gasRemains⟩]
  else if b.innerEdge ≥ rIn ∧ b.outerEdge ≤ rOut then
    -- band contained entirely within the swept region
    [⟨b.innerEdge, b.outerEdge, false, b.gasPresent && gasRemains⟩]
  else
    [b]

/-- The coalescing pass at the end of `Generator::updateDustLanes`: adjacent
bands with identical `(dustPresent, gasPresent)` flags are merged (the
current band absorbs the next band's outer edge and the next band is
erased; the iterator is not advanced after a merge). -/
def coalesceBands : List Dust → List Dust
  | [] => []
  | [b] => [b]
  | a :: b :: rest =>
    if a.dustPresent = b.dustPresent ∧ a.gasPresent = b.gasPresent then
      coalesceBands ({ a with outerEdge := b.outerEdge } :: rest)
    else
      a :: coalesceBands (b :: rest)
termination_by l => l.length

/-- `Generator::updateDustLanes`, as a function on the dust-band list:
every band is rewritten by `sweepBand` (the split cases append the new
sub-bands immediately after the current band, so the traversal order is
exactly a flat map), then adjacent identical bands are coalesced. -/
def updateDustLanes (rIn rOut : ℚ) (gasRemains : Bool) (bands : List Dust) : List Dust :=
  coalesceBands ((bands.map (sweepBand rIn rOut gasRemains)).flatten)

/-- `IsPartition lo hi l`: the band list `l` is a contiguous ordered
partition of the interval `[lo, hi]`: the first band starts at `lo`, every
band has nonnegative width, every band starts where the previous one ended,
and the last band ends at `hi`. -/
def IsPartition : ℚ → ℚ → List Dust → Prop
  | lo, hi, [] => lo = hi
  | lo, hi, b :: rest => b.innerEdge = lo ∧ b.innerEdge ≤ b.outerEdge ∧ IsPartition b.outerEdge hi rest

instance instDecIsPartition : ∀ (lo hi : ℚ) (l : List Dust), Decidable (IsPartition lo hi l)
  | lo, hi, [] => inferInstanceAs (Decidable (lo = hi))
  | _, hi, b :: rest =>
    letI := instDecIsPartition b.outerEdge hi rest
    inferInstanceAs (Decidable (_ ∧ _ ∧ _))

/-- Adjacent bands never share identical `(dustPresent, gasPresent)` flags. -/
def NoAdjacentDupFlags (l : List Dust) : Prop :=
  List.Chain' (fun a b => ¬(a.dustPresent = b.dustPresent ∧ a.gasPresent = b.gasPresent)) l

instance (l : List Dust) : Decidable (NoAdjacentDupFlags l) :=
  inferInstanceAs (Decidable (List.Chain' _ l))

theorem isPartition_append {lo mid hi : ℚ} :
    ∀ {l₁ l₂ : List Dust}, IsPartition lo mid l₁ → IsPartition mid hi l₂ →
      IsPartition lo hi (l₁ ++ l₂) := by
  intro l₁
  induction l₁ generalizing lo with
  | nil =>
    intro l₂ h1 h2
    simp only [IsPartition] at h1
    simpa [h1] using h2
  | cons b rest ih =>
    intro l₂ h1 h2
    obtain ⟨hb, hw, hrest⟩ := h1
    exact ⟨hb, hw, ih hrest h2⟩

theorem sweepBand_isPartition (rIn rOut : ℚ) (g : Bool) (b : Dust)
    (hw : b.innerEdge ≤ b.outerEdge) (hr : rIn ≤ rOut) :
    IsPartition b.innerEdge b.outerEdge (sweepBand rIn rOut g b) := by
  unfold sweepBand
  split_ifs with h1 h2 h3 h4
  · exact ⟨rfl, le_of_lt h1.1, rfl, hr, rfl, le_of_lt h1.2, rfl⟩
  · exact ⟨rfl, le_of_lt h2.1, rfl, h2.2, rfl⟩
  · exact ⟨rfl, h3.1, rfl, le_of_lt h3.2, rfl⟩
  · exact ⟨rfl, hw, rfl⟩
  · exact ⟨rfl, hw, rfl⟩

theorem sweptBands_isPartition (rIn rOut : ℚ) (g : Bool) (hr : rIn ≤ rOut) :
    ∀ {lo hi : ℚ} {bands : List Dust}, IsPartition lo hi bands →
      IsPartition lo hi ((bands.map (sweepBand rIn rOut g)).flatten) := by
  intro lo hi bands
  induction bands generalizing lo with
  | nil => intro h; simpa [IsPartition] using h
  | cons b rest ih =>
    intro h
    obtain ⟨hb, hw, hrest⟩ := h
    simp only [List.map_cons, List.flatten_cons]
    exact hb ▸ isPartition_append (sweepBand_isPartition rIn rOut g b hw hr) (ih hrest)

theorem isPartition_nil {lo hi : ℚ} : IsPartition lo hi [] ↔ lo = hi := Iff.rfl

theorem isPartition_cons {lo hi : ℚ} {b : Dust} {rest : List Dust} :
    IsPartition lo hi (b :: rest) ↔
      b.innerEdge = lo ∧ b.innerEdge ≤ b.outerEdge ∧ IsPartition b.outerEdge hi rest := Iff.rfl

theorem coalesceBands_isPartition :
    ∀ {l : List Dust} {lo hi : ℚ}, IsPartition lo hi l → IsPartition lo hi (coalesceBands l) := by
  intro l
  induction l using coalesceBands.induct with
  | case1 => intro lo hi h; simpa [coalesceBands] using h
  | case2 b => intro lo hi h; simpa [coalesceBands] using h
  | case3 a b rest heq ih =>
    intro lo hi h
    obtain ⟨ha, haw, hb, hbw, hrest⟩ := h
    rw [coalesceBands, if_pos heq]
    exact ih ⟨ha, le_trans haw (hb ▸ hbw), hrest⟩
  | case4 a b rest heq ih =>
    intro lo hi h
    obtain ⟨ha, haw, hrest⟩ := h
    rw [coalesceBands, if_neg heq]
    exact ⟨ha, haw, ih hrest⟩

theorem coalesceBands_head_flags :
    ∀ (b : Dust) (rest : List Dust), ∃ c t, coalesceBands (b :: rest) = c :: t ∧
      c.dustPresent = b.dustPresent ∧ c.gasPresent = b.gasPresent := by
  intro b rest
  induction rest generalizing b with
  | nil => exact ⟨b, [], by simp [coalesceBands], rfl, rfl⟩
  | cons n rest ih =>
    by_cases h : b.dustPresent = n.dustPresent ∧ b.gasPresent = n.gasPresent
    · obtain ⟨c, t, hc, hd, hg⟩ := ih ({ b with outerEdge := n.outerEdge })
      exact ⟨c, t, by rw [coalesceBands, if_pos h]; exact hc, hd, hg⟩
    · exact ⟨b, coalesceBands (n :: rest), by rw [coalesceBands, if_neg h], rfl, rfl⟩

theorem coalesceBands_noAdjacentDupFlags :
    ∀ (l : List Dust), NoAdjacentDupFlags (coalesceBands l) := by
  intro l
  induction l using coalesceBands.induct with
  | case1 => simp [coalesceBands, NoAdjacentDupFlags]
  | case2 b => simp [coalesceBands, NoAdjacentDupFlags]
  | case3 a b rest heq ih =>
    rw [coalesceBands, if_pos heq]
    exact ih
  | case4 a b rest heq ih =>
    rw [coalesceBands, if_neg heq]
    obtain ⟨c, t, hc, hd, hg⟩ := coalesceBands_head_flags b rest
    rw [hc]
    rw [hc] at ih
    exact List.Chain'.cons (by rw [hd, hg]; exact heq) ih

theorem isPartition_chain_contiguous {l : List Dust} :
    ∀ {lo hi : ℚ}, IsPartition lo hi l →
      List.Chain' (fun a b => a.outerEdge = b.innerEdge) l := by
  match l with
  | [] => intro lo hi _; exact List.chain'_nil
  | [b] => intro lo hi _; exact List.chain'_singleton b
  | b :: n :: rest =>
    intro lo hi h
    obtain ⟨hb, hw, hn, hnw, hrest⟩ := h
    exact List.Chain'.cons hn.symm
      (isPartition_chain_contiguous (l := n :: rest) ⟨hn, hnw, hrest⟩)

theorem isPartition_chain_sorted {l : List Dust} :
    ∀ {lo hi : ℚ}, IsPartition lo hi l →
      List.Chain' (fun a b => a.innerEdge ≤ b.innerEdge) l := by
  match l with
  | [] => intro lo hi _; exact List.chain'_nil
  | [b] => intro lo hi _; exact List.chain'_singleton b
  | b :: n :: rest =>
    intro lo hi h
    obtain ⟨hb, hw, hn, hnw, hrest⟩ := h
    exact List.Chain'.cons (hn ▸ hw)
      (isPartition_chain_sorted (l := n :: rest) ⟨hn, hnw, hrest⟩)

/-- **C1**: after every call to `Generator::updateDustLanes` on a band list
that partitions `[lo, hi]` (with a well-formed swept region
`rIn ≤ rOut`), the resulting band list is again a contiguous ordered
partition of the same interval `[lo, hi]` — so it is sorted ascending by
inner edge, each band's outer edge equals the next band's inner edge, and
the total span before and after the call is identical — and no two adjacent
surviving bands have identical `(dustPresent, gasPresent)` flags. -/
theorem updateDustLanes_partition_invariant (rIn rOut lo hi : ℚ) (gasRemains : Bool)
    (bands : List Dust) (hpart : IsPartition lo hi bands) (hr : rIn ≤ rOut) :
    IsPartition lo hi (updateDustLanes rIn rOut gasRemains bands) ∧
    List.Chain' (fun a b => a.innerEdge ≤ b.innerEdge)
      (updateDustLanes rIn rOut gasRemains bands) ∧
    List.Chain' (fun a b => a.outerEdge = b.innerEdge)
      (updateDustLanes rIn rOut gasRemains bands) ∧
    NoAdjacentDupFlags (updateDustLanes rIn rOut gasRemains bands) := by
  have hp : IsPartition lo hi (updateDustLanes rIn rOut gasRemains bands) :=
    coalesceBands_isPartition (sweptBands_isPartition rIn rOut gasRemains hr hpart)
  exact ⟨hp, isPartition_chain_sorted hp, isPartition_chain_contiguous hp,
    coalesceBands_noAdjacentDupFlags _⟩

/-- Witness for C1 at a concrete one-band disk swept on `[1, 2]`. -/
theorem updateDustLanes_partition_invariant_witness :
    IsPartition 0 200 [⟨0, 200, true, true⟩] ∧ (1 : ℚ) ≤ 2 ∧
    (IsPartition 0 200 (updateDustLanes 1 2 false [⟨0, 200, true, true⟩]) ∧
     List.Chain' (fun a b => a.innerEdge ≤ b.innerEdge)
       (updateDustLanes 1 2 false [⟨0, 200, true, true⟩]) ∧
     List.Chain' (fun a b => a.outerEdge = b.innerEdge)
       (updateDustLanes 1 2 false [⟨0, 200, true, true⟩]) ∧
     NoAdjacentDupFlags (updateDustLanes 1 2 false [⟨0, 200, true, true⟩])) :=
  ⟨by decide, by norm_num,
   updateDustLanes_partition_invariant 1 2 0 200 false _ (by decide) (by norm_num)⟩

/-! ## Coalescence (`Generator::coalescePlanetisimals`, src/source/Generator.cpp)

The effect-limit scalar `EffectLimitScalar(m) = (m/(1+m))^(1/4)` and the
square roots in the merged-eccentricity formula are irrational; they enter
the embedding as explicit function parameters `els` and `rsqrt`.  All of the
arithmetic the claims are about (distances, the overlap test, the merged
masses and semi-major axis, list removal and sorted insertion) is embedded
exactly. -/

/-- The fields of `Planet` that exist at coalescence time (constructor
`Planet(sma, e, dustMassComponent, gasMassComponent)`,
src/include/qcSysGen/Planet.h). -/
structure PlanetRec where
  semimajorAxis : ℚ
  eccentricity : ℚ
  dustMass : ℚ
  gasMass : ℚ
deriving DecidableEq, Repr

/-- `Planet::getMass()`: the constructor sets `totalMass = dustMass + gasMass`. -/
def PlanetRec.totalMass (p : PlanetRec) : ℚ := p.dustMass + p.gasMass

/-- `Generator::Protoplanet` (src/include/qcSysGen/Generator.h). -/
structure Protoplanet where
  sma : ℚ
  mass : ℚ
  eccentricity : ℚ
  criticalMass : ℚ := 0
  dustMass : ℚ
  gasMass : ℚ
deriving Repr

/-- The `dist1`/`dist2` pair from `Generator::coalescePlanetisimals`:
the orbital-influence half-widths of the protoplanet and of the existing
planet, on the side facing the other body.  `els` embeds
`EffectLimitScalar`. -/
def collisionDistances (els : ℚ → ℚ) (q : PlanetRec) (pp : Protoplanet) : ℚ × ℚ :=
  let diff := q.semimajorAxis - pp.sma
  let ppScalar := els pp.mass
  let plScalar := els q.totalMass
  if diff > 0 then
    (pp.sma * (1 + pp.eccentricity) * (1 + ppScalar) - pp.sma,
     q.semimajorAxis - q.semimajorAxis * (1 - q.eccentricity) * (1 - plScalar))
  else
    (pp.sma - pp.sma * (1 - pp.eccentricity) * (1 - ppScalar),
     q.semimajorAxis * (1 + q.eccentricity) * (1 + plScalar) - q.semimajorAxis)

/-- The collision test `fabs(diff) <= fabs(dist1) || fabs(diff) <= fabs(dist2)`. -/
def collides (els : ℚ → ℚ) (q : PlanetRec) (pp : Protoplanet) : Bool :=
  let diff := q.semimajorAxis - pp.sma
  let d := collisionDistances els q pp
  decide (|diff| ≤ |d.1|) || decide (|diff| ≤ |d.2|)

/-- The merged protoplanet built when a collision is detected.  `rsqrt`
embeds `sqrt`; the eccentricity mirrors the asymmetric source formula (the
planet term uses `sqrt(1-e²)`, the protoplanet term `sqrt(sqrt(1-e²))`),
with the final `max(0, 1-e2²)` clamp. -/
def mergedProtoplanet (rsqrt : ℚ → ℚ) (q : PlanetRec) (pp : Protoplanet) : Protoplanet :=
  let newSMA := (q.totalMass + pp.mass) /
    (q.totalMass / q.semimajorAxis + pp.mass / pp.sma)
  let e2a := q.totalMass * rsqrt q.semimajorAxis * rsqrt (1 - q.eccentricity ^ 2)
    + pp.mass * rsqrt pp.sma * rsqrt (rsqrt (1 - pp.eccentricity ^ 2))
  let e2b := e2a / ((q.totalMass + pp.mass) * rsqrt newSMA)
  let e2 := max 0 (1 - e2b ^ 2)
  { sma := newSMA
    mass := q.totalMass + pp.mass
    eccentricity := rsqrt e2
    dustMass := q.dustMass + pp.dustMass
    gasMass := q.gasMass + pp.gasMass }

/-- The scan of the planet list: the first planet whose orbit overlaps the
protoplanet's (in list order) triggers the merge. -/
def findCollision (els : ℚ → ℚ) (pp : Protoplanet) : List PlanetRec → Option PlanetRec
  | [] => none
  | q :: rest => if collides els q pp then some q else findCollision els pp rest

/-- `planetList.remove_if([planet](Planet& p){ return p.getSemimajorAxis() ==
planet->getSemimajorAxis(); })`: every planet at the matched semi-major axis
is removed. -/
def removePlanet (sma : ℚ) (l : List PlanetRec) : List PlanetRec :=
  l.filter (fun p => decide (p.semimajorAxis ≠ sma))

/-- The protoplanet converted into a `Planet`
(`Planet newPlanet(pp.sma, pp.eccentricity, pp.dustMass, pp.gasMass)`). -/
def protoplanetAsPlanet (pp : Protoplanet) : PlanetRec :=
  ⟨pp.sma, pp.eccentricity, pp.dustMass, pp.gasMass⟩

/-- The insertion scan of `Generator::coalescePlanetisimals` (the
`currentPlanet`/`nextPlanet` walk): insert after the first element whose
semi-major axis is below the new planet's while the next element's is not,
or after the last element. -/
def insertScan (newPlanet : PlanetRec) : List PlanetRec → List PlanetRec
  | [] => []
  | [c] => [c, newPlanet]
  | c :: n :: rest =>
    if c.semimajorAxis < newPlanet.semimajorAxis ∧ n.semimajorAxis ≥ newPlanet.semimajorAxis then
      c :: newPlanet :: n :: rest
    else
      c :: insertScan newPlanet (n :: rest)

/-- Insertion of a non-colliding protoplanet as a new planet: push front if
the list is empty or the new planet is innermost, otherwise run the scan. -/
def insertPlanet (newPlanet : PlanetRec) (l : List PlanetRec) : List PlanetRec :=
  match l with
  | [] => [newPlanet]
  | front :: _ =>
    if front.semimajorAxis > newPlanet.semimajorAxis then newPlanet :: l
    else insertScan newPlanet l

/-- Outcome of one call of `Generator::coalescePlanetisimals`: either a
merge (the colliding planet is removed from the list and the merged
protoplanet is handed back to `accreteDust`), or an insertion. -/
inductive CoalesceResult where
  | merged (newProtoplanet : Protoplanet) (remaining : List PlanetRec) : CoalesceResult
  | inserted (planets : List PlanetRec) : CoalesceResult
deriving Repr

/-- One call of `Generator::coalescePlanetisimals`, up to (but not
including) the recursive `accreteDust` resubmission in the merge case. -/
def coalesceStep (els rsqrt : ℚ → ℚ) (pp : Protoplanet) (planets : List PlanetRec) :
    CoalesceResult :=
  match findCollision els pp planets with
  | some q => .merged (mergedProtoplanet rsqrt q pp) (removePlanet q.semimajorAxis planets)
  | none => .inserted (insertPlanet (protoplanetAsPlanet pp) planets)

theorem findCollision_mem (els : ℚ → ℚ) (pp : Protoplanet) :
    ∀ {l : List PlanetRec} {q : PlanetRec}, findCollision els pp l = some q →
      q ∈ l ∧ collides els q pp = true := by
  intro l
  induction l with
  | nil => intro q h; simp [findCollision] at h
  | cons a rest ih =>
    intro q h
    rw [findCollision] at h
    by_cases hc : collides els a pp = true
    · rw [if_pos hc] at h
      obtain rfl : a = q := Option.some.inj h
      exact ⟨List.mem_cons_self a rest, hc⟩
    · rw [if_neg hc] at h
      obtain ⟨hm, hcol⟩ := ih h
      exact ⟨List.mem_cons_of_mem a hm, hcol⟩

theorem findCollision_none (els : ℚ → ℚ) (pp : Protoplanet) :
    ∀ {l : List PlanetRec}, findCollision els pp l = none →
      ∀ q ∈ l, collides els q pp = false := by
  intro l
  induction l with
  | nil => intro _ q hq; simp at hq
  | cons a rest ih =>
    intro h q hq
    rw [findCollision] at h
    by_cases hc : collides els a pp = true
    · rw [if_pos hc] at h; exact absurd h (Option.some_ne_none a)
    · rw [if_neg hc] at h
      rcases List.mem_cons.mp hq with rfl | hq2
      · exact Bool.eq_false_iff.mpr hc
      · exact ih h q hq2

/-- A planet that does not collide with the protoplanet does not share its
semi-major axis (`diff = 0` always satisfies `|diff| ≤ |dist1|`). -/
theorem not_collides_ne_sma (els : ℚ → ℚ) (q : PlanetRec) (pp : Protoplanet)
    (h : collides els q pp = false) : q.semimajorAxis ≠ pp.sma := by
  intro heq
  have hc : collides els q pp = true := by
    simp only [collides, Bool.or_eq_true, decide_eq_true_eq]
    left
    rw [heq, sub_self, abs_zero]
    positivity
  rw [h] at hc
  exact Bool.false_ne_true hc

/-- The planet list is sorted ascending by semi-major axis: every adjacent
pair is ordered. -/
def SortedBySMA (l : List PlanetRec) : Prop :=
  List.Chain' (fun a b => a.semimajorAxis ≤ b.semimajorAxis) l

instance (l : List PlanetRec) : Decidable (SortedBySMA l) :=
  inferInstanceAs (Decidable (List.Chain' _ l))

theorem sortedBySMA_pairwise {l : List PlanetRec} (h : SortedBySMA l) :
    List.Pairwise (fun a b => a.semimajorAxis ≤ b.semimajorAxis) l := by
  have : IsTrans PlanetRec (fun a b => a.semimajorAxis ≤ b.semimajorAxis) :=
    ⟨fun a b c hab hbc => le_trans hab hbc⟩
  exact List.chain'_iff_pairwise.mp h

theorem removePlanet_sorted (sma : ℚ) {l : List PlanetRec} (h : SortedBySMA l) :
    SortedBySMA (removePlanet sma l) :=
  ((sortedBySMA_pairwise h).sublist (List.filter_sublist l)).chain'

theorem insertScan_head (p c : PlanetRec) (rest : List PlanetRec) :
    ∃ t, insertScan p (c :: rest) = c :: t := by
  cases rest with
  | nil => exact ⟨[p], rfl⟩
  | cons n rest2 =>
    rw [insertScan]
    split_ifs with h
    · exact ⟨p :: n :: rest2, rfl⟩
    · exact ⟨insertScan p (n :: rest2), rfl⟩

theorem insertScan_sorted (p : PlanetRec) :
    ∀ (l : List PlanetRec), SortedBySMA l →
      (∀ q ∈ l, q.semimajorAxis ≠ p.semimajorAxis) →
      (∀ c ∈ l.head?, c.semimajorAxis < p.semimajorAxis) →
      SortedBySMA (insertScan p l)
  | [] => by intro _ _ _; exact List.chain'_nil
  | [c] => by
    intro _ _ hh
    have hc : c.semimajorAxis < p.semimajorAxis := hh c rfl
    exact List.chain'_pair.mpr hc.le
  | c :: n :: rest => by
    intro hs hne hh
    have hc : c.semimajorAxis < p.semimajorAxis := hh c rfl
    rw [insertScan]
    split_ifs with h
    · exact List.Chain'.cons hc.le (List.Chain'.cons h.2 hs.tail)
    · have hn : n.semimajorAxis < p.semimajorAxis := by
        rcases lt_or_ge n.semimajorAxis p.semimajorAxis with h2 | h2
        · exact h2
        · exact absurd ⟨hc, h2⟩ h
      have hrec : SortedBySMA (insertScan p (n :: rest)) :=
        insertScan_sorted p (n :: rest) hs.tail
          (fun q hq => hne q (List.mem_cons_of_mem c hq))
          (by
            intro x hx
            simp only [List.head?_cons, Option.mem_def, Option.some.injEq] at hx
            exact hx ▸ hn)
      obtain ⟨t, ht⟩ := insertScan_head p n rest
      rw [ht]
      rw [ht] at hrec
      exact List.Chain'.cons (List.chain'_cons.mp hs).1 hrec

theorem insertPlanet_sorted (p : PlanetRec) (l : List PlanetRec) (hs : SortedBySMA l)
    (hne : ∀ q ∈ l, q.semimajorAxis ≠ p.semimajorAxis) :
    SortedBySMA (insertPlanet p l) := by
  match l with
  | [] => exact List.chain'_singleton p
  | front :: rest =>
    rw [insertPlanet]
    split_ifs with h
    · exact List.Chain'.cons h.le hs
    · have hlt : front.semimajorAxis < p.semimajorAxis :=
        lt_of_le_of_ne (not_lt.mp h) (hne front (List.mem_cons_self front rest))
      refine insertScan_sorted p (front :: rest) hs hne ?_
      intro x hx
      simp only [List.head?_cons, Option.mem_def, Option.some.injEq] at hx
      exact hx ▸ hlt

theorem removePlanet_length_lt {q : PlanetRec} :
    ∀ {l : List PlanetRec}, q ∈ l → (removePlanet q.semimajorAxis l).length < l.length := by
  intro l hq
  induction l with
  | nil => simp at hq
  | cons a rest ih =>
    rw [removePlanet, List.filter_cons]
    rcases List.mem_cons.mp hq with rfl | hmem
    · rw [if_neg (by simp)]
      exact Nat.lt_succ_of_le (List.length_filter_le _ rest)
    · split_ifs with ha
      · simp only [List.length_cons]
        exact Nat.succ_lt_succ (ih hmem)
      · exact Nat.lt_succ_of_lt (ih hmem)

/-- The full recursion of `Generator::coalescePlanetisimals` together with
the `accreteDust` resubmission of the merged protoplanet: on a merge the
colliding planet is removed, the merged protoplanet re-sweeps the disk
(abstracted as `grow`; the sweep changes masses but no orbital elements),
and when the grown mass exceeds the protoplanet seed mass coalescence runs
again, possibly triggering further merges. -/
def coalesceFull (els rsqrt : ℚ → ℚ) (grow : Protoplanet → Protoplanet) (seedMass : ℚ)
    (pp : Protoplanet) (planets : List PlanetRec) : List PlanetRec :=
  match h : findCollision els pp planets with
  | none => insertPlanet (protoplanetAsPlanet pp) planets
  | some q =>
    let rem := removePlanet q.semimajorAxis planets
    let pp2 := grow (mergedProtoplanet rsqrt q pp)
    if pp2.mass > seedMass then coalesceFull els rsqrt grow seedMass pp2 rem
    else rem
termination_by planets.length
decreasing_by
  exact removePlanet_length_lt (findCollision_mem els pp h).1

/-- **C2**: whenever `Generator::coalescePlanetisimals` detects an orbital
overlap between the grown protoplanet `pp` and an existing planet (`q`, the
first overlapping planet in list order), the merged protoplanet it resubmits
to the accretion engine has total mass `mass(q) + mass(pp)`, dust mass
`dustMass(q) + dustMass(pp)`, gas mass `gasMass(q) + gasMass(pp)`, and
semi-major axis `(mass(q) + mass(pp)) / (mass(q)/sma(q) + mass(pp)/sma(pp))`. -/
theorem coalescePlanetisimals_merge_conserves (els rsqrt : ℚ → ℚ) (pp : Protoplanet)
    (planets : List PlanetRec) (q : PlanetRec)
    (h : findCollision els pp planets = some q) :
    q ∈ planets ∧ collides els q pp = true ∧
    coalesceStep els rsqrt pp planets =
      .merged (mergedProtoplanet rsqrt q pp) (removePlanet q.semimajorAxis planets) ∧
    (mergedProtoplanet rsqrt q pp).mass = q.totalMass + pp.mass ∧
    (mergedProtoplanet rsqrt q pp).dustMass = q.dustMass + pp.dustMass ∧
    (mergedProtoplanet rsqrt q pp).gasMass = q.gasMass + pp.gasMass ∧
    (mergedProtoplanet rsqrt q pp).sma =
      (q.totalMass + pp.mass) / (q.totalMass / q.semimajorAxis + pp.mass / pp.sma) := by
  obtain ⟨hm, hc⟩ := findCollision_mem els pp h
  exact ⟨hm, hc, by simp only [coalesceStep, h], rfl, rfl, rfl, rfl⟩

/-- Witness for C2: oracles returning `0`, one planet at the protoplanet's
own semi-major axis (overlap always triggers when the orbits coincide). -/
theorem coalescePlanetisimals_merge_conserves_witness :
    findCollision (fun _ => 0) ⟨1, 5, 0, 0, 4, 1⟩ [⟨1, 0, 2, 3⟩] = some ⟨1, 0, 2, 3⟩ ∧
    (mergedProtoplanet (fun _ => 0) ⟨1, 0, 2, 3⟩ ⟨1, 5, 0, 0, 4, 1⟩).mass =
      PlanetRec.totalMass ⟨1, 0, 2, 3⟩ + (5 : ℚ) :=
  ⟨by norm_num [findCollision, collides, collisionDistances],
   (coalescePlanetisimals_merge_conserves (fun _ => 0) (fun _ => 0) ⟨1, 5, 0, 0, 4, 1⟩
      [⟨1, 0, 2, 3⟩] ⟨1, 0, 2, 3⟩
      (by norm_num [findCollision, collides, collisionDistances])).2.2.2.1⟩

theorem coalesceStep_inserted_sorted (els rsqrt : ℚ → ℚ) (pp : Protoplanet)
    (planets : List PlanetRec) (hs : SortedBySMA planets) (l : List PlanetRec)
    (h : coalesceStep els rsqrt pp planets = .inserted l) : SortedBySMA l := by
  rw [coalesceStep] at h
  cases hf : findCollision els pp planets with
  | some q => rw [hf] at h; exact absurd h (by simp)
  | none =>
    rw [hf] at h
    obtain rfl : insertPlanet (protoplanetAsPlanet pp) planets = l := by
      simpa using h
    refine insertPlanet_sorted _ planets hs ?_
    intro q hq
    exact not_collides_ne_sma els q pp (findCollision_none els pp hf q hq)

theorem coalesceFull_none {els rsqrt : ℚ → ℚ} {grow : Protoplanet → Protoplanet}
    {seedMass : ℚ} {pp : Protoplanet} {planets : List PlanetRec}
    (hf : findCollision els pp planets = none) :
    coalesceFull els rsqrt grow seedMass pp planets =
      insertPlanet (protoplanetAsPlanet pp) planets := by
  rw [coalesceFull]
  split
  · rfl
  · rename_i q hq
    rw [hf] at hq
    exact absurd hq (by simp)

theorem coalesceFull_some {els rsqrt : ℚ → ℚ} {grow : Protoplanet → Protoplanet}
    {seedMass : ℚ} {pp : Protoplanet} {planets : List PlanetRec} {q : PlanetRec}
    (hf : findCollision els pp planets = some q) :
    coalesceFull els rsqrt grow seedMass pp planets =
      (if (grow (mergedProtoplanet rsqrt q pp)).mass > seedMass then
        coalesceFull els rsqrt grow seedMass (grow (mergedProtoplanet rsqrt q pp))
          (removePlanet q.semimajorAxis planets)
      else removePlanet q.semimajorAxis planets) := by
  rw [coalesceFull]
  split
  · rename_i hq
    rw [hf] at hq
    exact absurd hq (by simp)
  · rename_i q2 hq
    rw [hf] at hq
    obtain rfl := Option.some.inj hq
    rfl

theorem coalesceFull_sorted (els rsqrt : ℚ → ℚ) (grow : Protoplanet → Protoplanet)
    (seedMass : ℚ) (pp : Protoplanet) (planets : List PlanetRec)
    (hs : SortedBySMA planets) :
    SortedBySMA (coalesceFull els rsqrt grow seedMass pp planets) := by
  cases hf : findCollision els pp planets with
  | none =>
    rw [coalesceFull_none hf]
    refine insertPlanet_sorted _ planets hs ?_
    intro q hq
    exact not_collides_ne_sma els q pp (findCollision_none els pp hf q hq)
  | some q =>
    rw [coalesceFull_some hf]
    split_ifs with hgt
    · have hlt := removePlanet_length_lt (findCollision_mem els pp hf).1
      exact coalesceFull_sorted els rsqrt grow seedMass _ _
        (removePlanet_sorted q.semimajorAxis hs)
    · exact removePlanet_sorted q.semimajorAxis hs
termination_by planets.length
decreasing_by
  exact hlt

/-- **C3**: the planet list stays sorted ascending by semi-major axis
through every insertion and every merge performed by
`Generator::coalescePlanetisimals`: starting from a sorted list, the list
after inserting a non-colliding protoplanet is sorted, the list remaining
after a merge removes the colliding planet is sorted, and the list produced
by the full merge-and-resubmit recursion (for any accretion-growth function
and any sequence of merges it induces) is sorted. -/
theorem coalescePlanetisimals_preserves_order (els rsqrt : ℚ → ℚ)
    (grow : Protoplanet → Protoplanet) (seedMass : ℚ) (pp : Protoplanet)
    (planets : List PlanetRec) (hs : SortedBySMA planets) :
    (∀ l, coalesceStep els rsqrt pp planets = .inserted l → SortedBySMA l) ∧
    (∀ np rem, coalesceStep els rsqrt pp planets = .merged np rem → SortedBySMA rem) ∧
    SortedBySMA (coalesceFull els rsqrt grow seedMass pp planets) := by
  refine ⟨fun l h => coalesceStep_inserted_sorted els rsqrt pp planets hs l h, ?_,
    coalesceFull_sorted els rsqrt grow seedMass pp planets hs⟩
  intro np rem h
  rw [coalesceStep] at h
  cases hf : findCollision els pp planets with
  | none => rw [hf] at h; exact absurd h (by simp)
  | some q =>
    rw [hf] at h
    obtain ⟨-, rfl⟩ : mergedProtoplanet rsqrt q pp = np ∧
        removePlanet q.semimajorAxis planets = rem := by
      simpa using h
    exact removePlanet_sorted q.semimajorAxis hs

/-- Witness for C3: a sorted two-planet list and a protoplanet between the
two (oracles returning `0`, so no collision is detected and the protoplanet
is inserted between the planets). -/
theorem coalescePlanetisimals_preserves_order_witness :
    SortedBySMA [⟨1, 0, 2, 3⟩, ⟨4, 0, 2, 3⟩] ∧
    SortedBySMA (coalesceFull (fun _ => 0) (fun _ => 0) id 0
      ⟨2, 5, 0, 0, 4, 1⟩ [⟨1, 0, 2, 3⟩, ⟨4, 0, 2, 3⟩]) :=
  ⟨by norm_num [SortedBySMA, List.chain'_pair],
   (coalescePlanetisimals_preserves_order (fun _ => 0) (fun _ => 0) id 0
      ⟨2, 5, 0, 0, 4, 1⟩ [⟨1, 0, 2, 3⟩, ⟨4, 0, 2, 3⟩]
      (by norm_num [SortedBySMA, List.chain'_pair])).2.2⟩

/-! ## Planet classification (`Planet::evaluate`, src/source/Planet.cpp)

The numeric quantities that `Planet::evaluate` derives through
transcendental functions — the critical-mass limit (a `pow(x, -0.75)`), the
minimum retained molecular weight (a binary search over `exp`-based gas
lifetimes, computed once before classification and once more after
hydrogen/helium loss), gas lifetimes, the exponential loss factors
`1 - e^(-age/life)`, the surface pressure, and the surface-condition results
used by the rocky sub-classification — enter the embedding as fields of
`EvalInput`.  Every comparison, threshold constant and branch of the
classification logic is embedded exactly. -/

/-- `PlanetType` (src/include/qcSysGen/Enums.h). -/
inductive PlanetType where
  | Unknown
  | Rocky
  | AsteroidBelt
  | DwarfPlanet
  | IcePlanet
  | Terrestrial
  | Ocean
  | Gaseous
  | IceGiant
  | GasGiant
  | BrownDwarf
deriving DecidableEq, Repr

/-- `SolarMassToEarthMass = 332775.64` (src/include/qcSysGen/Consts.h). -/
def SolarMassToEarthMass : ℚ := 33277564 / 100

/-- `SolarMassToJovianMass = 1047.0` (src/include/qcSysGen/Consts.h). -/
def SolarMassToJovianMass : ℚ := 1047

/-- `RockyTransition = 2.04 / SolarMassToEarthMass` (src/include/Consts.h):
the rocky/gaseous transition, 2.04 Earth masses in solar masses. -/
def RockyTransition : ℚ := (204 / 100) / SolarMassToEarthMass

/-- `GaseousPlanetThreshold = 0.05` (src/source/Planet.cpp). -/
def GaseousPlanetThreshold : ℚ := 5 / 100

/-- `IcePlanetThreshold = 0.000001` (src/source/Planet.cpp). -/
def IcePlanetThreshold : ℚ := 1 / 1000000

/-- `BrownDwarfTransition = 13.0` (src/include/Consts.h), in Jovian masses. -/
def BrownDwarfTransition : ℚ := 13

/-- `IceGiantTransition = 0.414` (src/include/Consts.h), in Jovian masses. -/
def IceGiantTransition : ℚ := 414 / 1000

/-- `AsteroidMassLimit = 0.001` (src/include/Consts.h), in Earth masses. -/
def AsteroidMassLimit : ℚ := 1 / 1000

/-- `FreezingPointWater = 273.15` (src/include/Consts.h), in Kelvin. -/
def FreezingPointWater : ℚ := 27315 / 100

/-- The inputs of the classification decisions of `Planet::evaluate`.
`mmw1` is the minimum retained molecular weight computed before
classification, `mmw2` the one recomputed for the gas-dwarf re-promotion
test; `h2LossFactor`/`heLossFactor` are the loss fractions
`1 - e^(-stellarAge/life)`; `surfacePressure` is the pressure at the
re-promotion test and `surfacePressureFinal` the pressure after the
surface-condition iteration used by the rocky sub-classification. -/
structure EvalInput where
  dustMass : ℚ
  gasMass : ℚ
  totalMass : ℚ
  criticalLimit : ℚ
  mmw1 : ℚ
  stellarAge : ℚ
  h2Life : ℚ
  heLife : ℚ
  h2LossFactor : ℚ
  heLossFactor : ℚ
  mmw2 : ℚ
  surfacePressure : ℚ
  surfacePressureFinal : ℚ
  orbitalDominance : ℚ
  hydrosphere : ℚ
  iceCoverage : ℚ
  meanSurfaceTemperature : ℚ
deriving Repr

/-- The provisional gas-giant test at the top of `Planet::evaluate`
(src/source/Planet.cpp lines 492-516): dust mass above the critical limit
and gas fraction above 5% make the planet a gas-giant candidate, which
stands only with sufficient molecular retention (`minMolecularWeight ≤ 4`)
and sufficient overall mass (above the rocky/gaseous transition). -/
def initialType (i : EvalInput) : PlanetType :=
  if i.dustMass > i.criticalLimit ∧
      i.gasMass / i.totalMass > GaseousPlanetThreshold then
    (if i.mmw1 ≤ 4 ∧ i.totalMass > RockyTransition then PlanetType.Gaseous
     else PlanetType.Rocky)
  else PlanetType.Rocky

/-- The gas-dwarf branch of the rocky path (src/source/Planet.cpp lines
518-602): hydrogen and helium loss over the stellar age, then the
re-promotion test (surface pressure above 6000 mb and molecular retention of
hydrogen).  Returns the (possibly re-promoted) type and the remaining total
mass. -/
def gasDwarfStep (i : EvalInput) : PlanetType × ℚ :=
  if initialType i = PlanetType.Rocky ∧ i.gasMass / i.totalMass > IcePlanetThreshold ∧
      i.totalMass > RockyTransition then
    let h2Mass := i.gasMass * (85 / 100)
    let s1 := if i.h2Life < i.stellarAge then
        (i.gasMass - i.h2LossFactor * h2Mass, i.totalMass - i.h2LossFactor * h2Mass)
      else (i.gasMass, i.totalMass)
    let heMass := (s1.1 - h2Mass) * (999 / 1000)
    let s2 := if i.heLife < i.stellarAge then
        (s1.1 - i.heLossFactor * heMass, s1.2 - i.heLossFactor * heMass)
      else s1
    if i.surfacePressure > 6000 ∧ i.mmw2 ≤ 2 then (PlanetType.Gaseous, s2.2)
    else (PlanetType.Rocky, s2.2)
  else (initialType i, i.totalMass)

/-- The classification flow of `Planet::evaluate` (src/source/Planet.cpp,
lines 492-778): the provisional gas-giant test, the gas-dwarf
hydrogen/helium-loss and re-promotion branch, the gaseous
sub-classification by Jovian-mass thresholds, and the rocky
sub-classification.  Returns the final `PlanetType` and final total mass. -/
def evaluateType (i : EvalInput) : PlanetType × ℚ :=
  let st := gasDwarfStep i
  if st.1 = PlanetType.Gaseous then
    let jovianMass := st.2 * SolarMassToJovianMass
    if jovianMass > BrownDwarfTransition then (PlanetType.BrownDwarf, st.2)
    else if jovianMass > IceGiantTransition then (PlanetType.GasGiant, st.2)
    else (PlanetType.IceGiant, st.2)
  else if st.2 * SolarMassToEarthMass < AsteroidMassLimit ∧ i.surfacePressureFinal < 1 then
    (PlanetType.AsteroidBelt, st.2)
  else if i.surfacePressureFinal < 1 then
    (if i.orbitalDominance ≤ 1 then (PlanetType.DwarfPlanet, st.2)
     else (PlanetType.Rocky, st.2))
  else if i.orbitalDominance ≤ 1 then (PlanetType.DwarfPlanet, st.2)
  else if i.hydrosphere > 95 / 100 then (PlanetType.Ocean, st.2)
  else if i.iceCoverage > 95 / 100 ∨ i.meanSurfaceTemperature < FreezingPointWater then
    (PlanetType.IcePlanet, st.2)
  else if i.hydrosphere > 5 / 100 then (PlanetType.Terrestrial, st.2)
  else (PlanetType.Rocky, st.2)

/-- A concrete hot sub-Neptune: dust mass above the critical limit, 10% gas
fraction, total mass `1e-5` solar (about 3.3 Earth masses, above the
rocky/gaseous transition), but minimum retained molecular weight `5.0`
(it cannot hold on to helium), no hydrogen/helium loss (gas lifetimes exceed
the stellar age), surface pressure 1000 mb, a hydrosphere of 0.5 and a
temperate mean surface temperature. -/
def hotSubNeptune : EvalInput :=
  { dustMass := 9 / 1000000
    gasMass := 1 / 1000000
    totalMass := 1 / 100000
    criticalLimit := 1 / 100000000
    mmw1 := 5
    stellarAge := 4600000000
    h2Life := 10000000000
    heLife := 10000000000
    h2LossFactor := 0
    heLossFactor := 0
    mmw2 := 5
    surfacePressure := 1000
    surfacePressureFinal := 1000
    orbitalDominance := 2
    hydrosphere := 1 / 2
    iceCoverage := 0
    meanSurfaceTemperature := 288 }

/-- **C4 fails as stated**: `hotSubNeptune` satisfies all three conditions of
the claim — dust mass above the critical limit, gas fraction above 0.05,
total mass above the rocky/gaseous transition — yet `Planet::evaluate`
classifies it `Terrestrial`, not `Gaseous` (nor any gaseous sub-class),
because the claim omits the molecular-retention condition
`minMolecularWeight ≤ 4.0` of src/source/Planet.cpp line 501. -/
theorem evaluate_gaseous_counterexample :
    (hotSubNeptune.dustMass > hotSubNeptune.criticalLimit ∧
     hotSubNeptune.gasMass / hotSubNeptune.totalMass > GaseousPlanetThreshold ∧
     hotSubNeptune.totalMass > RockyTransition) ∧
    (evaluateType hotSubNeptune).1 = PlanetType.Terrestrial ∧
    (evaluateType hotSubNeptune).1 ≠ PlanetType.Gaseous ∧
    (evaluateType hotSubNeptune).1 ≠ PlanetType.BrownDwarf ∧
    (evaluateType hotSubNeptune).1 ≠ PlanetType.GasGiant ∧
    (evaluateType hotSubNeptune).1 ≠ PlanetType.IceGiant := by
  have ht0 : initialType hotSubNeptune = PlanetType.Rocky := by
    norm_num [initialType, hotSubNeptune, GaseousPlanetThreshold]
  have hst : gasDwarfStep hotSubNeptune = (PlanetType.Rocky, 1 / 100000) := by
    simp only [gasDwarfStep, ht0]
    norm_num [hotSubNeptune, IcePlanetThreshold, RockyTransition, SolarMassToEarthMass]
  have he : evaluateType hotSubNeptune = (PlanetType.Terrestrial, 1 / 100000) := by
    simp only [evaluateType, hst]
    rw [if_neg (by simp)]
    norm_num [hotSubNeptune, SolarMassToEarthMass, AsteroidMassLimit, FreezingPointWater]
  refine ⟨⟨by norm_num [hotSubNeptune], ?_, ?_⟩,
    by rw [he], by rw [he]; simp, by rw [he]; simp, by rw [he]; simp, by rw [he]; simp⟩
  · norm_num [hotSubNeptune, GaseousPlanetThreshold]
  · norm_num [hotSubNeptune, RockyTransition, SolarMassToEarthMass]

/-- **C4 (amended)**: in `Planet::evaluate`, a planet whose dust mass
exceeds the critical limit, whose gas fraction exceeds 0.05, whose total
mass exceeds the rocky/gaseous transition (2.04 Earth masses in solar
masses), *and whose minimum retained molecular weight is at most 4.0*, is
classified `Gaseous`; and it is then sub-classified `BrownDwarf` when its
Jovian mass exceeds 13.0, `GasGiant` when it exceeds 0.414 but not 13.0,
and `IceGiant` otherwise. -/
theorem evaluate_gaseous_classification (i : EvalInput)
    (hd : i.dustMass > i.criticalLimit)
    (hg : i.gasMass / i.totalMass > GaseousPlanetThreshold)
    (hm : i.totalMass > RockyTransition) (hw : i.mmw1 ≤ 4) :
    (evaluateType i).1 =
      (if i.totalMass * SolarMassToJovianMass > BrownDwarfTransition then PlanetType.BrownDwarf
       else if i.totalMass * SolarMassToJovianMass > IceGiantTransition then PlanetType.GasGiant
       else PlanetType.IceGiant) ∧
    (evaluateType i).2 = i.totalMass := by
  have ht0 : initialType i = PlanetType.Gaseous := by
    rw [initialType, if_pos ⟨hd, hg⟩, if_pos ⟨hw, hm⟩]
  have hst : gasDwarfStep i = (PlanetType.Gaseous, i.totalMass) := by
    rw [gasDwarfStep, if_neg (by simp [ht0]), ht0]
  have h0 : evaluateType i =
      (if i.totalMass * SolarMassToJovianMass > BrownDwarfTransition then
        (PlanetType.BrownDwarf, i.totalMass)
       else if i.totalMass * SolarMassToJovianMass > IceGiantTransition then
        (PlanetType.GasGiant, i.totalMass)
       else (PlanetType.IceGiant, i.totalMass)) := by
    simp only [evaluateType, hst]
    rw [if_pos trivial]
  rw [h0]
  constructor <;> split_ifs <;> rfl

/-- Witness for C4 (amended): a Jupiter-mass gas giant. -/
theorem evaluate_gaseous_classification_witness :
    (evaluateType
      { dustMass := 1 / 1000
        gasMass := 9 / 10000
        totalMass := 1 / 1000
        criticalLimit := 1 / 100000000
        mmw1 := 2
        stellarAge := 4600000000
        h2Life := 10000000000
        heLife := 10000000000
        h2LossFactor := 0
        heLossFactor := 0
        mmw2 := 2
        surfacePressure := 1000
        surfacePressureFinal := 1000
        orbitalDominance := 2
        hydrosphere := 0
        iceCoverage := 0
        meanSurfaceTemperature := 288 }).1 = PlanetType.GasGiant := by
  have h := evaluate_gaseous_classification
    { dustMass := 1 / 1000
      gasMass := 9 / 10000
      totalMass := 1 / 1000
      criticalLimit := 1 / 100000000
      mmw1 := 2
      stellarAge := 4600000000
      h2Life := 10000000000
      heLife := 10000000000
      h2LossFactor := 0
      heLossFactor := 0
      mmw2 := 2
      surfacePressure := 1000
      surfacePressureFinal := 1000
      orbitalDominance := 2
      hydrosphere := 0
      iceCoverage := 0
      meanSurfaceTemperature := 288 }
    (by norm_num) (by norm_num [GaseousPlanetThreshold])
    (by norm_num [RockyTransition, SolarMassToEarthMass]) (by norm_num)
  rw [h.1]
  norm_num [SolarMassToJovianMass, BrownDwarfTransition, IceGiantTransition]

/-! ## Surface-condition iteration (`Planet::iterateSurfaceConditions`,
src/source/Planet.cpp lines 971-1000)

The loop body `updateSurfaceConditions` (randomized albedo blending,
hydrosphere/cloud/ice recomputation, greenhouse temperature) is embedded as
an arbitrary state-update function `upd` on an arbitrary state type `σ`
with a mean-surface-temperature observation `temp`; the claim is about the
loop structure itself, which is embedded exactly: one initial update, then
at most 25 refinement iterations, leaving the loop early exactly when the
absolute temperature change of an iteration drops below 0.25 K, and keeping
the last computed state on non-convergence. -/

/-- The `for (int i = 0; i < MaxConvergenceIterations; ++i)` loop of
`Planet::iterateSurfaceConditions`, with `n` iterations remaining: each
iteration records the previous temperature, updates the surface conditions
once, and leaves the loop if the temperature moved by less than 0.25 K.
Returns the final state, the number of updates performed by the loop, and
the `converged` flag. -/
def surfaceIterAux {σ : Type} (upd : σ → σ) (temp : σ → ℚ) : ℕ → σ → σ × ℕ × Bool
  | 0, s => (s, 0, false)
  | n + 1, s =>
    let prev := temp s
    let s1 := upd s
    if |prev - temp s1| < 1 / 4 then (s1, 1, true)
    else
      let r := surfaceIterAux upd temp n s1
      (r.1, r.2.1 + 1, r.2.2)

/-- `Planet::iterateSurfaceConditions`: the initial
`updateSurfaceConditions` call followed by the refinement loop with
`MaxConvergenceIterations = 25`. -/
def iterateSurfaceConditions {σ : Type} (upd : σ → σ) (temp : σ → ℚ) (s0 : σ) :
    σ × ℕ × Bool :=
  surfaceIterAux upd temp 25 (upd s0)

theorem surfaceIterAux_spec {σ : Type} (upd : σ → σ) (temp : σ → ℚ) :
    ∀ (n : ℕ) (s : σ),
      (surfaceIterAux upd temp n s).2.1 ≤ n ∧
      (surfaceIterAux upd temp n s).1 = upd^[(surfaceIterAux upd temp n s).2.1] s ∧
      ((surfaceIterAux upd temp n s).2.2 = true →
        1 ≤ (surfaceIterAux upd temp n s).2.1 ∧
        |temp (upd^[(surfaceIterAux upd temp n s).2.1 - 1] s) -
          temp (upd^[(surfaceIterAux upd temp n s).2.1] s)| < 1 / 4 ∧
        ∀ j < (surfaceIterAux upd temp n s).2.1 - 1,
          |temp (upd^[j] s) - temp (upd^[j + 1] s)| ≥ 1 / 4) ∧
      ((surfaceIterAux upd temp n s).2.2 = false →
        (surfaceIterAux upd temp n s).2.1 = n ∧
        ∀ j < n, |temp (upd^[j] s) - temp (upd^[j + 1] s)| ≥ 1 / 4) := by
  intro n
  induction n with
  | zero =>
    intro s
    refine ⟨le_refl 0, rfl, ?_, ?_⟩
    · intro h; exact absurd h (by simp [surfaceIterAux])
    · intro _; exact ⟨rfl, fun j hj => absurd hj (Nat.not_lt_zero j)⟩
  | succ n ih =>
    intro s
    by_cases hc : |temp s - temp (upd s)| < 1 / 4
    · have hr : surfaceIterAux upd temp (n + 1) s = (upd s, 1, true) := by
        rw [surfaceIterAux, if_pos hc]
      rw [hr]
      dsimp only
      refine ⟨Nat.succ_le_succ (Nat.zero_le n), by simp, ?_, ?_⟩
      · intro _
        refine ⟨le_refl 1, ?_, ?_⟩
        · simpa using hc
        · intro j hj; exact absurd hj (by omega)
      · intro h; exact absurd h (by simp)
    · obtain ⟨ih1, ih2, ih3, ih4⟩ := ih (upd s)
      have hr : surfaceIterAux upd temp (n + 1) s =
          ((surfaceIterAux upd temp n (upd s)).1,
           (surfaceIterAux upd temp n (upd s)).2.1 + 1,
           (surfaceIterAux upd temp n (upd s)).2.2) := by
        rw [surfaceIterAux, if_neg hc]
      rw [hr]
      dsimp only
      have hgap0 : |temp (upd^[0] s) - temp (upd^[0 + 1] s)| ≥ 1 / 4 := by
        simpa using le_of_not_lt hc
      have hshift : ∀ j, upd^[j] (upd s) = upd^[j + 1] s := by
        intro j
        rw [Function.iterate_succ_apply]
      refine ⟨Nat.succ_le_succ ih1, ?_, ?_, ?_⟩
      · rw [ih2, hshift]
      · intro ht
        obtain ⟨hc1, hcgap, hprev⟩ := ih3 ht
        refine ⟨le_trans hc1 (Nat.le_succ_of_le (le_refl _)), ?_, ?_⟩
        · have : (surfaceIterAux upd temp n (upd s)).2.1 + 1 - 1 =
              ((surfaceIterAux upd temp n (upd s)).2.1 - 1) + 1 := by omega
          rw [this, ← hshift, ← hshift]
          exact hcgap
        · intro j hj
          match j with
          | 0 => exact hgap0
          | j + 1 =>
            rw [← hshift, ← hshift]
            exact hprev j (by omega)
      · intro hf
        obtain ⟨hcn, hall⟩ := ih4 hf
        refine ⟨by rw [hcn], ?_⟩
        intro j hj
        match j with
        | 0 => exact hgap0
        | j + 1 =>
          rw [← hshift, ← hshift]
          exact hall j (by omega)

/-- **C5**: `Planet::iterateSurfaceConditions` executes at most 25
refinement iterations after the initial update; the final state is exactly
the result of applying the update that many times (on non-convergence the
last computed values are kept — there is no failure path); the loop leaves
early with `converged = true` exactly when the mean surface temperature of
an iteration moved by less than 0.25 K, every earlier iteration having
moved by at least 0.25 K; and `converged = false` happens exactly when all
25 iterations moved the temperature by at least 0.25 K. -/
theorem iterateSurfaceConditions_spec {σ : Type} (upd : σ → σ) (temp : σ → ℚ) (s0 : σ) :
    (iterateSurfaceConditions upd temp s0).2.1 ≤ 25 ∧
    (iterateSurfaceConditions upd temp s0).1 =
      upd^[(iterateSurfaceConditions upd temp s0).2.1] (upd s0) ∧
    ((iterateSurfaceConditions upd temp s0).2.2 = true →
      1 ≤ (iterateSurfaceConditions upd temp s0).2.1 ∧
      |temp (upd^[(iterateSurfaceConditions upd temp s0).2.1 - 1] (upd s0)) -
        temp (upd^[(iterateSurfaceConditions upd temp s0).2.1] (upd s0))| < 1 / 4 ∧
      ∀ j < (iterateSurfaceConditions upd temp s0).2.1 - 1,
        |temp (upd^[j] (upd s0)) - temp (upd^[j + 1] (upd s0))| ≥ 1 / 4) ∧
    ((iterateSurfaceConditions upd temp s0).2.2 = false →
      (iterateSurfaceConditions upd temp s0).2.1 = 25 ∧
      ∀ j < 25, |temp (upd^[j] (upd s0)) - temp (upd^[j + 1] (upd s0))| ≥ 1 / 4) :=
  surfaceIterAux_spec upd temp 25 (upd s0)

/-- Witness for C5: the identity update on `ℚ` converges after one loop
iteration. -/
theorem iterateSurfaceConditions_spec_witness :
    iterateSurfaceConditions (id : ℚ → ℚ) id 0 = (0, 1, true) ∧
    (iterateSurfaceConditions (id : ℚ → ℚ) id 0).2.1 ≤ 25 :=
  ⟨by norm_num [iterateSurfaceConditions, surfaceIterAux],
   (iterateSurfaceConditions_spec (id : ℚ → ℚ) id 0).1⟩

/-! ## `KothariRadius` zone and table selection (src/source/Equations.cpp,
lines 59-92)

The claim is about which atomic-weight/atomic-number table entries the
function selects and how it interpolates between them; the subsequent
radius formula (cube roots, `pow(mass, 2/3)`) plays no part in the claim
and is not embedded.  The zone index, the interpolant, the tables and the
clamped `Lerp` are embedded exactly. -/

/-- The clamped linear interpolation `Lerp` (src/include/qcSysGen/Equations.h). -/
def Lerp (t a b : ℚ) : ℚ :=
  if t ≤ 0 then a else if t ≥ 1 then b else a + (b - a) * t

/-- `AtomicWeight[6] = { 15.0, 10.0, 10.0, 9.5, 2.47, 7.0 }`:
rocky Zone 1-3 followed by gas-giant Zone 1-3. -/
def atomicWeightTable : List ℚ := [15, 10, 10, 19 / 2, 247 / 100, 7]

/-- `AtomicNumber[6] = { 8.0, 5.0, 5.0, 4.5, 2.0, 4.0 }`. -/
def atomicNumberTable : List ℚ := [8, 5, 5, 9 / 2, 2, 4]

/-- `int zoneIndex = (orbitZone < 2.0f) ? 0 : 1;` followed by
`if (forGasGiant) zoneIndex += 3;`. -/
def kothariZoneIndex (forGasGiant : Bool) (materialZone : ℚ) : ℕ :=
  (if materialZone < 2 then 0 else 1) + (if forGasGiant then 3 else 0)

/-- `double interpolant = (orbitZone - floorf(orbitZone));`. -/
def kothariInterpolant (materialZone : ℚ) : ℚ := materialZone - ⌊materialZone⌋

/-- The atomic weight `KothariRadius` uses:
`Lerp(interpolant, AtomicWeight[zoneIndex], AtomicWeight[zoneIndex + 1])`. -/
def kothariAtomicWeight (forGasGiant : Bool) (mz : ℚ) : ℚ :=
  Lerp (kothariInterpolant mz)
    (atomicWeightTable.getD (kothariZoneIndex forGasGiant mz) 0)
    (atomicWeightTable.getD (kothariZoneIndex forGasGiant mz + 1) 0)

/-- The atomic number `KothariRadius` uses. -/
def kothariAtomicNumber (forGasGiant : Bool) (mz : ℚ) : ℚ :=
  Lerp (kothariInterpolant mz)
    (atomicNumberTable.getD (kothariZoneIndex forGasGiant mz) 0)
    (atomicNumberTable.getD (kothariZoneIndex forGasGiant mz + 1) 0)

/-- Follows the claim's words (not the source): zone index
`floor(materialZone) - 1`, gas-giant tables offset by `+3`. -/
def kothariZoneIndexSpec (forGasGiant : Bool) (materialZone : ℚ) : ℕ :=
  (⌊materialZone⌋ - 1).toNat + (if forGasGiant then 3 else 0)

/-- Follows the claim's words (not the source): interpolate between the
`floor(materialZone) - 1` entry and the next by the fractional part. -/
def kothariAtomicWeightSpec (forGasGiant : Bool) (mz : ℚ) : ℚ :=
  Lerp (kothariInterpolant mz)
    (atomicWeightTable.getD (kothariZoneIndexSpec forGasGiant mz) 0)
    (atomicWeightTable.getD (kothariZoneIndexSpec forGasGiant mz + 1) 0)

/-- Follows the claim's words (not the source), for the atomic-number table. -/
def kothariAtomicNumberSpec (forGasGiant : Bool) (mz : ℚ) : ℚ :=
  Lerp (kothariInterpolant mz)
    (atomicNumberTable.getD (kothariZoneIndexSpec forGasGiant mz) 0)
    (atomicNumberTable.getD (kothariZoneIndexSpec forGasGiant mz + 1) 0)

/-- **C6 fails as stated** at `materialZone = 3.0` (reachable: the star's
`getMaterialZone` clamps to exactly 3.0 beyond the Zone-2/Zone-3 overlap):
the claim's zone index `floor(3) - 1 = 2` selects gas-giant table entry 5
(atomic weight 7.0), but the source's `(orbitZone < 2) ? 0 : 1` keeps index
1, selecting gas-giant entry 4 (atomic weight 2.47). -/
theorem kothariRadius_zone_counterexample :
    (1 : ℚ) ≤ 3 ∧ (3 : ℚ) ≤ 3 ∧
    kothariZoneIndex true 3 = 4 ∧ kothariZoneIndexSpec true 3 = 5 ∧
    kothariAtomicWeight true 3 = 247 / 100 ∧
    kothariAtomicWeightSpec true 3 = 7 ∧
    kothariAtomicWeight true 3 ≠ kothariAtomicWeightSpec true 3 := by
  have ht2 : (2 : ℤ).toNat = 2 := rfl
  norm_num [kothariAtomicWeight, kothariAtomicWeightSpec, kothariZoneIndex,
    kothariZoneIndexSpec, kothariInterpolant, Lerp, atomicWeightTable, ht2]

/-- **C6 (amended)**: for every gas-giant flag and `materialZone ∈ [1, 3)`,
`KothariRadius` selects its table entries using zone index
`floor(materialZone) - 1` (gas-giant table offset by `+3`) and linearly
interpolates between that entry and the next by the fractional part of
`materialZone`; at `materialZone = 3.0` exactly, it instead keeps zone
index 1 (gas: 4) with interpolant 0, so the value is table entry 1
(gas: entry 4), not entry 2 (gas: entry 5). -/
theorem kothariRadius_zone_selection (g : Bool) (mz : ℚ) (h1 : 1 ≤ mz) (h2 : mz ≤ 3) :
    (mz < 3 →
      kothariAtomicWeight g mz = kothariAtomicWeightSpec g mz ∧
      kothariAtomicNumber g mz = kothariAtomicNumberSpec g mz) ∧
    (mz = 3 →
      kothariInterpolant mz = 0 ∧
      kothariZoneIndex g mz = (if g then 4 else 1) ∧
      kothariAtomicWeight g mz = atomicWeightTable.getD (if g then 4 else 1) 0 ∧
      kothariAtomicNumber g mz = atomicNumberTable.getD (if g then 4 else 1) 0) := by
  constructor
  · intro h3
    have hidx : kothariZoneIndex g mz = kothariZoneIndexSpec g mz := by
      rw [kothariZoneIndex, kothariZoneIndexSpec]
      by_cases hm : mz < 2
      · have hf : ⌊mz⌋ = 1 := by
          rw [Int.floor_eq_iff]
          constructor
          · exact_mod_cast h1
          · push_cast; linarith
        rw [if_pos hm, hf]
        norm_num
      · have hf : ⌊mz⌋ = 2 := by
          rw [Int.floor_eq_iff]
          constructor
          · push_cast; linarith [not_lt.mp hm]
          · push_cast; linarith
        rw [if_neg hm, hf]
        norm_num
    rw [kothariAtomicWeight, kothariAtomicWeightSpec, kothariAtomicNumber,
      kothariAtomicNumberSpec, hidx]
    exact ⟨rfl, rfl⟩
  · rintro rfl
    have hz : kothariZoneIndex g 3 = (if g then 4 else 1) := by
      rw [kothariZoneIndex]
      cases g <;> norm_num
    refine ⟨by norm_num [kothariInterpolant], hz, ?_, ?_⟩
    · rw [kothariAtomicWeight, hz]
      norm_num [kothariInterpolant, Lerp]
    · rw [kothariAtomicNumber, hz]
      norm_num [kothariInterpolant, Lerp]

/-- Witness for C6 (amended) in the middle of the Zone-1/Zone-2 overlap. -/
theorem kothariRadius_zone_selection_witness :
    (1 : ℚ) ≤ 3 / 2 ∧ (3 / 2 : ℚ) ≤ 3 ∧ (3 / 2 : ℚ) < 3 ∧
    kothariAtomicWeight false (3 / 2) = kothariAtomicWeightSpec false (3 / 2) ∧
    kothariAtomicWeight false (3 / 2) = 25 / 2 :=
  ⟨by norm_num, by norm_num, by norm_num,
   ((kothariRadius_zone_selection false (3 / 2) (by norm_num) (by norm_num)).1
     (by norm_num)).1,
   by norm_num [kothariAtomicWeight, kothariZoneIndex, kothariInterpolant, Lerp,
     atomicWeightTable]⟩

/-! ## The dust/gas density split of `Generator::collectDust`
(src/source/Generator.cpp, lines 413-431) -/

/-- The gas-branch density split: with the gas-to-dust ratio `K = 50` and
`sqrtRatio` standing for `sqrt(criticalMass / lastMass)`,
`massDensity = K * dustDensity / (1 + sqrtRatio * (K - 1))` and
`gasDensity = massDensity - dustDensity`. -/
def collectDustGasDensity (sqrtRatio dustDensity : ℚ) : ℚ :=
  let K : ℚ := 50
  let massDensity := K * dustDensity / (1 + sqrtRatio * (K - 1))
  massDensity - dustDensity

/-- **C7**: whenever the gas branch of `Generator::collectDust` is taken —
that is, the accumulated mass is at least the protoplanet's critical mass
(so `sqrt(criticalMass/lastMass) ≤ 1`) — the computed
`gasDensity = massDensity - dustDensity` is non-negative, so the assertion
`gasDensity >= 0.0` never fires.  `s` is constrained by the defining
property of the square root. -/
theorem collectDust_gasDensity_nonneg (criticalMass lastMass dustDensity s : ℚ)
    (hcm : 0 ≤ criticalMass) (hlm : 0 < lastMass) (hcl : criticalMass ≤ lastMass)
    (hd : 0 ≤ dustDensity) (hs : 0 ≤ s) (hsq : s ^ 2 = criticalMass / lastMass) :
    0 ≤ collectDustGasDensity s dustDensity := by
  have hs2 : s ^ 2 ≤ 1 := by
    rw [hsq]
    exact div_le_one_of_le hcl hlm.le
  have hs1 : s ≤ 1 := by nlinarith
  have hden : (0 : ℚ) < 1 + s * (50 - 1) := by nlinarith
  rw [collectDustGasDensity]
  rw [sub_nonneg, le_div_iff hden]
  nlinarith

/-- Witness for C7 at `criticalMass = 1`, `lastMass = 4`,
`sqrt(1/4) = 1/2`, `dustDensity = 1`. -/
theorem collectDust_gasDensity_nonneg_witness :
    (0 : ℚ) ≤ 1 ∧ (0 : ℚ) < 4 ∧ (1 : ℚ) ≤ 4 ∧ ((1 / 2 : ℚ)) ^ 2 = 1 / 4 ∧
    0 ≤ collectDustGasDensity (1 / 2) 1 :=
  ⟨by norm_num, by norm_num, by norm_num, by norm_num,
   collectDust_gasDensity_nonneg 1 4 1 (1 / 2) (by norm_num) (by norm_num)
     (by norm_num) (by norm_num) (by norm_num) (by norm_num)⟩

/-! ## Cloud eccentricity (`System::create`, src/source/System.cpp line 86,
and the effect limits of src/include/qcSysGen/GenerationState.h) -/

/-- `config.cloudEccentricity = std::max(0.0, std::min(config.cloudEccentricity,
0.99));` — the clamp `System::create` applies to the user-supplied cloud
eccentricity before generation. -/
def clampCloudEccentricity (x : ℚ) : ℚ := max 0 (min x (99 / 100))

/-- Follows the claim's words (not the source): clamp to `[0, 0.9]`. -/
def clampCloudEccentricitySpec (x : ℚ) : ℚ := max 0 (min x (9 / 10))

/-- `GenerationState::innerEffectLimit` (GenerationState.h line 194): the
clamped cloud eccentricity is the `cloudEccentricity` divisor term. -/
def innerEffectLimit (sma e reducedMass ce : ℚ) : ℚ :=
  sma * (1 - e) * (1 - reducedMass) / (1 + ce)

/-- `GenerationState::outerEffectLimit` (GenerationState.h line 209). -/
def outerEffectLimit (sma e reducedMass ce : ℚ) : ℚ :=
  sma * (1 + e) * (1 + reducedMass) / (1 - ce)

/-- **C9 fails as stated**: a configured cloud eccentricity of 0.95 is kept
at 0.95 by the source clamp (`[0, 0.99]`, matching the `Config` field's own
documentation), whereas the claimed `[0, 0.9]` clamp would reduce it to
0.9; the effect-limit computation therefore sees 0.95. -/
theorem cloudEccentricity_clamp_counterexample :
    clampCloudEccentricity (95 / 100) = 95 / 100 ∧
    clampCloudEccentricitySpec (95 / 100) = 9 / 10 ∧
    clampCloudEccentricity (95 / 100) ≠ clampCloudEccentricitySpec (95 / 100) ∧
    innerEffectLimit 1 0 0 (clampCloudEccentricity (95 / 100)) = 20 / 39 := by
  norm_num [clampCloudEccentricity, clampCloudEccentricitySpec, innerEffectLimit]

/-- **C9 (amended)**: the user-supplied cloud eccentricity is clamped to
`[0, 0.99]` (default 0.2, which the clamp leaves unchanged) by
`System::create` before being used as the mean eccentricity of the nebular
dust in the effect-limit computation; the clamp is the identity on
`[0, 0.99]`. -/
theorem cloudEccentricity_clamped (x : ℚ) :
    0 ≤ clampCloudEccentricity x ∧ clampCloudEccentricity x ≤ 99 / 100 ∧
    (0 ≤ x → x ≤ 99 / 100 → clampCloudEccentricity x = x) ∧
    clampCloudEccentricity (1 / 5) = 1 / 5 := by
  refine ⟨le_max_left 0 _, max_le (by norm_num) (min_le_right x _), ?_, by
    norm_num [clampCloudEccentricity]⟩
  intro h0 h99
  rw [clampCloudEccentricity, min_eq_left h99, max_eq_right h0]

/-- Witness for C9 (amended) at the default value 0.2. -/
theorem cloudEccentricity_clamped_witness :
    0 ≤ clampCloudEccentricity (1 / 2) ∧ clampCloudEccentricity (1 / 2) = 1 / 2 :=
  ⟨(cloudEccentricity_clamped (1 / 2)).1,
   (cloudEccentricity_clamped (1 / 2)).2.2.1 (by norm_num) (by norm_num)⟩

/-! ## `Generator::randomEccentricity`
(src/include/qcSysGen/Generator.h, lines 158-167) -/

/-- `1.0f - powf(randomUniform(1/16, 1), 0.077f)`: `powVal` stands for
`powf(u, 0.077)`, constrained in the theorem by its defining property
`powVal ^ 1000 = u ^ 77` (that is, `powVal = u^(77/1000) = u^0.077`). -/
def randomEccentricity (powVal : ℚ) : ℚ := 1 - powVal

/-- The protoplanet-seed eccentricity validity test of `Generator::generate`
(src/source/Generator.cpp line 526): an eccentricity outside `[0, 0.9]` is
replaced by a fresh `randomEccentricity()` draw. -/
def eccentricityValid (e : ℚ) : Bool := !(decide (e < 0) || decide (e > 9 / 10))

/-- **C10**: for every uniform draw `u ∈ [1/16, 1]`,
`randomEccentricity = 1 - u^0.077` lies in `[0, 1 - (1/16)^0.077]`: it is
non-negative, below 0.2 (the bound `1 - (1/16)^0.077 ≈ 0.193 < 1/5`), in
particular strictly less than 1, and it always passes the `[0, 0.9]`
validity test, so a seed eccentricity produced this way is never
re-randomized. -/
theorem randomEccentricity_bounds (u p : ℚ) (hu1 : 1 / 16 ≤ u) (hu2 : u ≤ 1)
    (hp : 0 < p) (hpow : p ^ 1000 = u ^ 77) :
    0 ≤ randomEccentricity p ∧ randomEccentricity p < 1 / 5 ∧
    randomEccentricity p < 1 ∧ eccentricityValid (randomEccentricity p) = true := by
  have hu0 : (0 : ℚ) < u := lt_of_lt_of_le (by norm_num) hu1
  have hple : p ≤ 1 := by
    have h1 : p ^ 1000 ≤ 1 := by
      rw [hpow]
      exact pow_le_one hu0.le hu2
    exact (pow_le_one_iff_of_nonneg hp.le (by norm_num)).mp h1
  have key : ((4 : ℚ) / 5) ^ 1000 < (1 / 16) ^ 77 := by
    rw [div_pow, div_pow, div_lt_div_iff (by positivity) (by positivity)]
    norm_num
  have hlow : (1 / 16 : ℚ) ^ 77 ≤ p ^ 1000 := by
    rw [hpow]
    exact pow_le_pow_left (by norm_num) hu1 77
  have hpgt : (4 : ℚ) / 5 < p :=
    lt_of_pow_lt_pow_left 1000 hp.le (lt_of_lt_of_le key hlow)
  refine ⟨by rw [randomEccentricity]; linarith, by rw [randomEccentricity]; linarith,
    by rw [randomEccentricity]; linarith, ?_⟩
  have e0 : ¬(randomEccentricity p < 0) := by rw [randomEccentricity]; push_neg; linarith
  have e9 : ¬(randomEccentricity p > 9 / 10) := by rw [randomEccentricity]; push_neg; linarith
  simp [eccentricityValid, e0, e9]

/-- Witness for C10 at the draw `u = 1` (where `powf(1, 0.077) = 1`). -/
theorem randomEccentricity_bounds_witness :
    (1 / 16 : ℚ) ≤ 1 ∧ (1 : ℚ) ≤ 1 ∧ (0 : ℚ) < 1 ∧ (1 : ℚ) ^ 1000 = (1 : ℚ) ^ 77 ∧
    eccentricityValid (randomEccentricity 1) = true :=
  ⟨by norm_num, by norm_num, by norm_num, by norm_num,
   (randomEccentricity_bounds 1 1 (by norm_num) (by norm_num) (by norm_num)
     (by norm_num)).2.2.2⟩

/-! ## `Generator::generate` (src/source/Generator.cpp, lines 467-614)

The generator's only source of randomness is the member `std::mt19937_64`
engine, seeded by `Generator::seed` (Generator.h line 227); `generate`
reads no clock and no global state.  The embedding makes this explicit:
every random draw is a pure function of the seed value and a running draw
counter, and every transcendental library call is a fixed oracle function,
so a whole generation run is a pure function of
`(oracles, config, star, seed, fuel)`.  The three source loops without a
structural termination measure (the dust-growth `do/while`, the Bode-seed
expansion and the `while (dustRemains)` sweep) carry an explicit iteration
bound `fuel`; the source relies on the physical model for their
termination. -/

/-- The fixed transcendental functions and seeded random-draw streams of a
single build of the generator.  `uniform seed i` is the `i`-th canonical
uniform draw in `[0, 1]` of the engine seeded with `seed`; `gauss` the
`i`-th standard normal draw; `uniformInt seed i lo hi` the `i`-th integer
draw from `[lo, hi]`. -/
structure Oracles where
  els : ℚ → ℚ
  rsqrt : ℚ → ℚ
  dustDensity : ℚ → ℚ
  pi4 : ℚ
  criticalLimit : ℚ → ℚ → ℚ → ℚ
  pow077 : ℚ → ℚ
  uniform : ℕ → ℕ → ℚ
  gauss : ℕ → ℕ → ℚ
  uniformInt : ℕ → ℕ → ℕ → ℕ → ℕ
  bodeF : ℚ → ℚ → ℚ → ℤ → ℚ
  evalInput : ℕ → ℕ → PlanetRec → EvalInput

/-- The configuration fields `Generator::generate` reads. -/
structure GenConfig where
  protoplanetSeeds : List (ℚ × ℚ)
  generateBodeSeeds : Bool
  protoplanetSeedMass : ℚ
  inclinationMean : ℚ
  inclinationStdDev : ℚ

/-- The star values `Generator::generate` shadows
(`protoplanetZone`, `stellarLuminosity`, `stellarMass`) together with the
dust zone and the ecosphere radius the Bode seeding uses. -/
structure StarShadow where
  dustZone : ℚ × ℚ
  protoplanetZone : ℚ × ℚ
  luminosity : ℚ
  mass : ℚ
  ecosphere : ℚ

/-- The hardcoded `CloudEccentricity = 0.2` of `GetEffectLimits`
(src/source/Generator.cpp line 60). -/
def generatorCloudEccentricity : ℚ := 1 / 5

/-- `GetEffectLimits` (src/source/Generator.cpp lines 56-65). -/
def GetEffectLimits (els : ℚ → ℚ) (sma e mass : ℚ) : ℚ × ℚ :=
  (sma * (1 - e) * (1 - els mass) / (1 + generatorCloudEccentricity),
   sma * (1 + e) * (1 + els mass) / (1 - generatorCloudEccentricity))

/-- The swept region `GetEffectLimits` hands to `updateDustLanes` is always
well-formed (`r_inner ≤ r_outer`), for any semi-major axis, eccentricity in
`[0, 1]` and effect-limit scalar in `[0, 1]` — this discharges the
`rIn ≤ rOut` hypothesis of the dust-lane partition invariant for every
protoplanet the generator builds. -/
theorem GetEffectLimits_ordered (els : ℚ → ℚ) (sma e m : ℚ)
    (hs : 0 ≤ sma) (he0 : 0 ≤ e) (he1 : e ≤ 1) (hm0 : 0 ≤ els m) (hm1 : els m ≤ 1) :
    (GetEffectLimits els sma e m).1 ≤ (GetEffectLimits els sma e m).2 := by
  rw [GetEffectLimits, generatorCloudEccentricity]
  dsimp only
  rw [div_le_div_iff (by norm_num) (by norm_num)]
  have ha : 0 ≤ sma * (1 - e) * (1 - els m) :=
    mul_nonneg (mul_nonneg hs (by linarith)) (by linarith)
  have key : sma * (1 + e) * (1 + els m) - sma * (1 - e) * (1 - els m) =
      2 * (sma * (e + els m)) := by ring
  have hprod : 0 ≤ sma * (e + els m) := mul_nonneg hs (add_nonneg he0 hm0)
  linarith

/-- The closed form of the inclination normalization loop
(`fabs` then repeated subtraction of 180): `|x| mod 180`. -/
def normalizeAngle180 (x : ℚ) : ℚ := |x| - 180 * ⌊|x| / 180⌋

/-- `Generator::randomUniform(lo, hi)` as an affine map of a canonical
draw. -/
def randomUniformModel (O : Oracles) (seed ctr : ℕ) (lo hi : ℚ) : ℚ :=
  lo + (hi - lo) * O.uniform seed ctr

/-- `Generator::randomNear(mean, threeSigma)`: a normal draw with standard
deviation `threeSigma / 3`. -/
def randomNearModel (O : Oracles) (seed ctr : ℕ) (mean threeSigma : ℚ) : ℚ :=
  mean + (threeSigma / 3) * O.gauss seed ctr

/-- `Generator::randomTwoPi()`: uniform in `[0, 2π]` (`2π = pi4 / 2`). -/
def randomTwoPiModel (O : Oracles) (seed ctr : ℕ) : ℚ :=
  randomUniformModel O seed ctr 0 (O.pi4 / 2)

/-- `Generator::randomEccentricity()`: `1 - powf(randomUniform(1/16, 1),
0.077)`. -/
def randomEccentricityModel (O : Oracles) (seed ctr : ℕ) : ℚ :=
  randomEccentricity (O.pow077 (randomUniformModel O seed ctr (1 / 16) 1))

/-- `Generator::collectDust` (src/source/Generator.cpp lines 377-464) over
the band list: bands outside the effect radius are skipped; a band's mass
density splits into dust and gas by the `K = 50` ratio once `lastMass`
reaches the critical mass; the swept volume is the clipped width times the
`4π·sma²·scalar·(1 − e·(outerClip−innerClip)/bandWidth)` area.  Returns the
collected `(total, dust, gas)` masses. -/
def collectDustModel (O : Oracles) (pp : Protoplanet) (rIn rOut lastMass : ℚ) :
    List Dust → ℚ × ℚ × ℚ
  | [] => (0, 0, 0)
  | band :: rest =>
    let next := collectDustModel O pp rIn rOut lastMass rest
    if band.outerEdge ≤ rIn ∨ band.innerEdge ≥ rOut then next
    else
      let tempDensity := if band.dustPresent then O.dustDensity pp.sma else 0
      let gasDensity := if lastMass < pp.criticalMass ∨ ¬band.gasPresent then 0
        else collectDustGasDensity (O.rsqrt (pp.criticalMass / lastMass)) tempDensity
      let massDensity := tempDensity + gasDensity
      let bandWidth := rOut - rIn
      let outerTemp := max 0 (rOut - band.outerEdge)
      let innerTemp := max 0 (band.innerEdge - rIn)
      let width := bandWidth - outerTemp - innerTemp
      let area := O.pi4 * pp.sma ^ 2 * O.els lastMass *
        (1 - pp.eccentricity * (outerTemp - innerTemp) / bandWidth)
      let volume := area * width
      let newMass := volume * massDensity
      let addGas := volume * gasDensity
      (newMass + next.1, (newMass - addGas) + next.2.1, addGas + next.2.2)

/-- The dust-growth `do/while` of `Generator::accreteDust` (lines 96-106):
recompute the effect limits from the current total, sweep, and repeat while
the collected mass still grows by at least 0.01%. -/
def growLoop (O : Oracles) (pp : Protoplanet) (bands : List Dust) :
    ℕ → ℚ → ℚ × ℚ × ℚ
  | 0, added => (added, 0, 0)
  | fuel + 1, added =>
    let lim := GetEffectLimits O.els pp.sma pp.eccentricity (pp.mass + added)
    let r := collectDustModel O pp lim.1 lim.2 (pp.mass + added) bands
    if r.1 > 0 ∧ r.1 - added ≥ (1 / 10000) * added then growLoop O pp bands fuel r.1
    else (r.1, r.2.1, r.2.2)

/-- The `dustRemains` recomputation of `Generator::updateDustLanes` (lines
1052-1058): dust remains while some dust-bearing band overlaps the
protoplanet zone.  (The source evaluates the test during the coalescing
pass; the result over the coalesced list is the same, since coalescing
merges only bands with identical flags.) -/
def dustRemainsAfter (zone : ℚ × ℚ) (bands : List Dust) : Bool :=
  bands.any (fun b => b.dustPresent && decide (b.outerEdge ≥ zone.1) &&
    decide (b.innerEdge ≤ zone.2))

/-- `Generator::accreteDust` together with the `coalescePlanetisimals`
merge recursion: set the critical mass, grow, update the dust lanes, and
either insert the protoplanet, or merge it with the first overlapping
planet and re-enter with the merged body. -/
def accreteDustModel (O : Oracles) (cfg : GenConfig) (star : StarShadow) :
    ℕ → Protoplanet → List Dust → List PlanetRec → Bool →
      List Dust × List PlanetRec × Bool
  | 0, _, bands, planets, dustRemains => (bands, planets, dustRemains)
  | fuel + 1, pp0, bands, planets, dustRemains =>
    let pp1 := { pp0 with
      criticalMass := O.criticalLimit pp0.sma pp0.eccentricity star.luminosity }
    let added := growLoop O pp1 bands (fuel + 1) 0
    let pp2 := { pp1 with
      mass := pp1.mass + added.1
      dustMass := pp1.dustMass + added.2.1
      gasMass := pp1.gasMass + added.2.2 }
    let lim := GetEffectLimits O.els pp2.sma pp2.eccentricity pp2.mass
    let bands1 := if added.1 > 0 then
        updateDustLanes lim.1 lim.2 (decide (pp2.mass < pp2.criticalMass)) bands
      else bands
    let dust1 := if added.1 > 0 then dustRemainsAfter star.protoplanetZone bands1
      else dustRemains
    if pp2.mass > cfg.protoplanetSeedMass then
      match findCollision O.els pp2 planets with
      | none => (bands1, insertPlanet (protoplanetAsPlanet pp2) planets, dust1)
      | some q =>
        accreteDustModel O cfg star fuel (mergedProtoplanet O.rsqrt q pp2) bands1
          (removePlanet q.semimajorAxis planets) dust1
    else (bands1, planets, dust1)

/-- The eccentricity fixup applied to caller-supplied protoplanet seeds
(lines 523-530): any seed whose eccentricity fails the `[0, 0.9]` test gets
a fresh random eccentricity. -/
def assignSeedEccs (O : Oracles) (seed : ℕ) : ℕ → List (ℚ × ℚ) →
    List (ℚ × ℚ) × ℕ
  | ctr, [] => ([], ctr)
  | ctr, s :: rest =>
    if eccentricityValid s.2 then
      let r := assignSeedEccs O seed ctr rest
      (s :: r.1, r.2)
    else
      let e := randomEccentricityModel O seed ctr
      let r := assignSeedEccs O seed (ctr + 1) rest
      ((s.1, e) :: r.1, r.2)

/-- The Bode-seed expansion loop of `Generator::generateBodeSeeds` (lines
889-923): for `n = 1, 2, ...` add the `-n` seed while it stays inside the
inner protoplanet-zone edge and the `+n` seed while it stays inside the
outer edge; an eccentricity draw is consumed for each candidate whether or
not it is kept. -/
def bodeSeedLoop (O : Oracles) (seed : ℕ) (zone : ℚ × ℚ) (A B alpha : ℚ) :
    ℕ → ℤ → ℕ → List (ℚ × ℚ) → List (ℚ × ℚ) × ℕ
  | 0, _, ctr, acc => (acc, ctr)
  | fuel + 1, n, ctr, acc =>
    let smaNeg := O.bodeF A B alpha (-n)
    let eccNeg := randomEccentricityModel O seed ctr
    let keep1 : Bool := decide (smaNeg ≥ zone.1)
    let acc1 := if keep1 then acc ++ [(smaNeg, eccNeg)] else acc
    let smaPos := O.bodeF A B alpha n
    let eccPos := randomEccentricityModel O seed (ctr + 1)
    let keep2 : Bool := decide (smaPos ≤ zone.2)
    let acc2 := if keep2 then acc1 ++ [(smaPos, eccPos)] else acc1
    if keep1 || keep2 then bodeSeedLoop O seed zone A B alpha fuel (n + 1) (ctr + 2) acc2
    else (acc2, ctr + 2)

/-- Swap two list entries. -/
def swapAt (i j : ℕ) (l : List (ℚ × ℚ)) : List (ℚ × ℚ) :=
  match l[i]?, l[j]? with
  | some a, some b => (l.set i b).set j a
  | _, _ => l

/-- The seed reordering of `Generator::generateBodeSeeds` (lines 925-941):
each index from 1 to `size - 2` is swapped with a random index in
`[1, size - 1]`; the first (habitable-zone) seed stays first. -/
def bodeShuffle (O : Oracles) (seed : ℕ) (size : ℕ) :
    ℕ → ℕ → List (ℚ × ℚ) → List (ℚ × ℚ) × ℕ
  | i, ctr, l =>
    if i < size - 1 then
      let otherIdx := O.uniformInt seed ctr 1 (size - 1)
      let l1 := if i ≠ otherIdx then swapAt i otherIdx l else l
      bodeShuffle O seed size (i + 1) (ctr + 1) l1
    else (l, ctr)
termination_by i _ _ => size - 1 - i
decreasing_by
  omega

/-- `Generator::generateBodeSeeds` (lines 834-942): the Blagg parameters
`A` (scaled by the star's ecosphere) and `B` are drawn near their nominal
values, `alpha` is a random angle, the first seed is the `n = 0` Bode
orbit, then the expansion loop and the reordering run. -/
def bodeSeeds (O : Oracles) (seed : ℕ) (star : StarShadow) (fuel : ℕ) :
    List (ℚ × ℚ) × ℕ :=
  let A := (4162 / 10000) * star.ecosphere * randomNearModel O seed 0 1 (4 / 100)
  let B := (2025 / 1000) * randomNearModel O seed 1 1 (4 / 100)
  let alpha := randomTwoPiModel O seed 2
  let s0 := (O.bodeF A B alpha 0, randomEccentricityModel O seed 3)
  let r := bodeSeedLoop O seed star.protoplanetZone A B alpha fuel 1 4 [s0]
  bodeShuffle O seed r.1.length 1 r.2 r.1

/-- The seed-application loop of `Generator::generate` (lines 550-570):
each seed inside the protoplanet zone is accreted while dust remains. -/
def applySeeds (O : Oracles) (cfg : GenConfig) (star : StarShadow) (fuel : ℕ) :
    List (ℚ × ℚ) → List Dust → List PlanetRec → Bool →
      List Dust × List PlanetRec × Bool
  | [], bands, planets, dust => (bands, planets, dust)
  | s :: rest, bands, planets, dust =>
    if s.1 ≥ star.protoplanetZone.1 ∧ s.1 ≤ star.protoplanetZone.2 ∧ dust = true then
      let pp : Protoplanet :=
        { sma := s.1, mass := cfg.protoplanetSeedMass, eccentricity := s.2,
          dustMass := cfg.protoplanetSeedMass, gasMass := 0 }
      let r := accreteDustModel O cfg star fuel pp bands planets dust
      applySeeds O cfg star fuel rest r.1 r.2.1 r.2.2
    else applySeeds O cfg star fuel rest bands planets dust

/-- The `while (dustRemains)` sweep of `Generator::generate` (lines
578-586): random protoplanets at uniform orbits consume the remaining
dust. -/
def sweepRemaining (O : Oracles) (cfg : GenConfig) (star : StarShadow) (seed : ℕ) :
    ℕ → ℕ → List Dust → List PlanetRec → Bool → List PlanetRec × ℕ
  | 0, ctr, _, planets, _ => (planets, ctr)
  | fuel + 1, ctr, bands, planets, dust =>
    if dust then
      let sma := randomUniformModel O seed ctr star.protoplanetZone.1 star.protoplanetZone.2
      let ecc := randomEccentricityModel O seed (ctr + 1)
      let pp : Protoplanet :=
        { sma := sma, mass := cfg.protoplanetSeedMass, eccentricity := ecc,
          dustMass := cfg.protoplanetSeedMass, gasMass := 0 }
      let r := accreteDustModel O cfg star (fuel + 1) pp bands planets dust
      sweepRemaining O cfg star seed fuel (ctr + 2) r.1 r.2.1 r.2.2
    else (planets, ctr)

/-- A finished planet record: the accreted body, its randomized orbital
elements (lines 597-611), and its classification from the evaluation pass
(`system.evaluate`, line 613, via the classification flow of
`Planet::evaluate`). -/
structure PlanetOut where
  planet : PlanetRec
  inclination : ℚ
  longitudeAscendingNode : ℚ
  argumentOfPeriapsis : ℚ
  meanAnomalyAtEpoch : ℚ
  classification : PlanetType
deriving Repr

/-- The finalization loop of `Generator::generate` (lines 596-613):
inclination near the configured mean (normalized to `[0, 180)`), three
random angles, and the evaluation pass. -/
def finalizePlanets (O : Oracles) (cfg : GenConfig) (seed : ℕ) :
    ℕ → List PlanetRec → List PlanetOut
  | _, [] => []
  | ctr, p :: rest =>
    let inc := normalizeAngle180
      (randomNearModel O seed ctr cfg.inclinationMean (3 * cfg.inclinationStdDev))
    let lan := randomTwoPiModel O seed (ctr + 1)
    let aop := randomTwoPiModel O seed (ctr + 2)
    let ma := randomTwoPiModel O seed (ctr + 3)
    { planet := p, inclination := inc, longitudeAscendingNode := lan,
      argumentOfPeriapsis := aop, meanAnomalyAtEpoch := ma,
      classification := (evaluateType (O.evalInput seed (ctr + 4) p)).1 } ::
      finalizePlanets O cfg seed (ctr + 5) rest

/-- `Generator::generate` for a supplied (already evaluated) star: sanity
clamps on the inclination configuration, seed preparation (explicit seeds
take priority over Bode seeding), dust-band initialization to the star's
dust zone, seeded accretion, the random sweep of the remaining dust, and
finalization. -/
def generateModel (O : Oracles) (cfg : GenConfig) (star : StarShadow) (seed : ℕ)
    (fuel : ℕ) : List PlanetOut :=
  let cfg1 := { cfg with
    inclinationMean := normalizeAngle180 cfg.inclinationMean
    inclinationStdDev := |cfg.inclinationStdDev| }
  let s0 := if cfg1.protoplanetSeeds ≠ [] then assignSeedEccs O seed 0 cfg1.protoplanetSeeds
    else if cfg1.generateBodeSeeds then bodeSeeds O seed star fuel
    else ([], 0)
  let bands0 : List Dust := [⟨star.dustZone.1, star.dustZone.2, true, true⟩]
  let r1 := applySeeds O cfg1 star fuel s0.1 bands0 [] true
  let r2 := sweepRemaining O cfg1 star seed fuel s0.2 r1.1 r1.2.1 r1.2.2
  finalizePlanets O cfg1 seed r2.2 r2.1

/-- **C8**: two runs of `Generator::generate` with the same RNG seed value,
the same configuration and the same input star produce identical planet
lists — the same planet count, the same orbital elements for every planet,
and the same classification for every planet.  In the embedding the whole
run, for one build of the generator (one set of oracle functions), is a
pure function of `(config, star, seed)`: `generate` draws randomness only
from the seeded member engine and reads no other mutable or ambient
state. -/
theorem generate_deterministic (O : Oracles) (cfg : GenConfig) (star : StarShadow)
    (seed1 seed2 fuel : ℕ) (h : seed1 = seed2) :
    generateModel O cfg star seed1 fuel = generateModel O cfg star seed2 fuel ∧
    (generateModel O cfg star seed1 fuel).length =
      (generateModel O cfg star seed2 fuel).length ∧
    (generateModel O cfg star seed1 fuel).map (fun p => p.planet.semimajorAxis) =
      (generateModel O cfg star seed2 fuel).map (fun p => p.planet.semimajorAxis) ∧
    (generateModel O cfg star seed1 fuel).map (fun p => p.classification) =
      (generateModel O cfg star seed2 fuel).map (fun p => p.classification) := by
  subst h
  exact ⟨rfl, rfl, rfl, rfl⟩

/-- Witness for C8 at the default `mt19937_64` seed value 5489. -/
theorem generate_deterministic_witness :
    (5489 : ℕ) = 5489 ∧
    generateModel
      ⟨fun _ => 0, fun _ => 0, fun _ => 0, 0, fun _ _ _ => 0, fun _ => 0,
       fun _ _ => 0, fun _ _ => 0, fun _ _ _ _ => 0, fun _ _ _ _ => 0,
       fun _ _ _ => ⟨0, 0, 0, 0, 0, 0, 0, 0, 0, 0, 0, 0, 0, 0, 0, 0, 0⟩⟩
      ⟨[], false, 0, 0, 0⟩ ⟨(0, 200), (3 / 10, 50), 1, 1, 1⟩ 5489 0 =
    generateModel
      ⟨fun _ => 0, fun _ => 0, fun _ => 0, 0, fun _ _ _ => 0, fun _ => 0,
       fun _ _ => 0, fun _ _ => 0, fun _ _ _ _ => 0, fun _ _ _ _ => 0,
       fun _ _ _ => ⟨0, 0, 0, 0, 0, 0, 0, 0, 0, 0, 0, 0, 0, 0, 0, 0, 0⟩⟩
      ⟨[], false, 0, 0, 0⟩ ⟨(0, 200), (3 / 10, 50), 1, 1, 1⟩ 5489 0 :=
  ⟨rfl,
   (generate_deterministic _ ⟨[], false, 0, 0, 0⟩ ⟨(0, 200), (3 / 10, 50), 1, 1, 1⟩
     5489 5489 0 rfl).1⟩

end QcSysGen
